import Mathlib

/-!
Verification development for the hacktivity polling / de-duplication core
of the hackeroni-slack-disclosure-bot repository.

The embedding is shallow: the Python functions of `src/worker.py` and
`src/poll/lambda.py` are translated to executable Lean definitions.
Network effects (HTTP responses, the Slack webhook outcome, the CSRF
refresh outcome) are supplied as explicit environment values; Python
exceptions are modelled with `Except` over the `PyExc` type.  A bare
`except:` in Python catches every exception class, which the model
mirrors by totalising the cycle into an explicit `exc` field.
-/

/-- Python exception values that flow through the worker and lambdas.
`httpError` models `requests.exceptions.HTTPError` carrying the response
status code and body text; `keyboardInterrupt` models `KeyboardInterrupt`;
`other` covers every remaining exception class (connection errors,
`KeyError`, JSON decode errors, ...), which the worker's handlers treat
uniformly. -/
inductive PyExc where
  | httpError (status : Nat) (body : String)
  | keyboardInterrupt
  | other (msg : String)
deriving DecidableEq, Repr

/-- The `report` object of a hacktivity node; `idOpt` is the `_id` field,
`none` when the key is absent from the JSON object. -/
structure Report where
  idOpt : Option String
deriving DecidableEq, Repr

/-- One node of `data.hacktivity_items.nodes`: the `__typename`
discriminator, and the `report` object (`none` when the key is absent).
All further payload fields are opaque to the polling core. -/
structure Node where
  typename : String
  reportOpt : Option Report
deriving DecidableEq, Repr

/-- An HTTP response as seen by the Python code: status code, body text,
and `jsonNodes`, the value of `response.json()["data"]["hacktivity_items"]["nodes"]`
when the body parses to that shape (`none` models a decode/shape failure). -/
structure HttpResponse where
  status : Nat
  text : String
  jsonNodes : Option (List Node)
deriving DecidableEq, Repr

/-- `requests.Response.raise_for_status`: raises `HTTPError` exactly for
status codes in [400, 600), as in the requests library source. -/
def raise_for_status (r : HttpResponse) : Except PyExc Unit :=
  if 400 ≤ r.status ∧ r.status < 600 then
    Except.error (PyExc.httpError r.status r.text)
  else
    Except.ok ()

/-- Boolean substring test on lists, used to model Python's `in` test on
strings. -/
def listIsInfixOf [BEq α] (needle : List α) : List α → Bool
  | [] => needle.isEmpty
  | a :: rest => needle.isPrefixOf (a :: rest) || listIsInfixOf needle rest

/-- The marker string `'"STANDARD_ERROR"'` matched against the failed
response body in `src/worker.py` line 148. -/
def standardErrorMarker : String := "\"STANDARD_ERROR\""

/-- Python's `'"STANDARD_ERROR"' in body`. -/
def hasStandardError (body : String) : Bool :=
  listIsInfixOf standardErrorMarker.toList body.toList

/-- The hacktivity landing page as seen by `refresh_csrf`:
`metaCsrfContent` is the `content` attribute of the
`meta[name="csrf-token"]` element when present in the markup
(the result of `soup.select_one(...)`), `none` when the element is
absent. -/
structure HtmlPage where
  status : Nat
  metaCsrfContent : Option String
deriving DecidableEq, Repr

/-- Session headers, an association list keyed by header name. -/
abbrev Headers := List (String × String)

/-- Set (replace) a header value. -/
def setHeader (hs : Headers) (k v : String) : Headers :=
  (k, v) :: hs.filter (fun p => p.1 != k)

/-- Look up a header value. -/
def getHeader (hs : Headers) (k : String) : Option String :=
  (hs.find? (fun p => p.1 == k)).map Prod.snd

/-- `refresh_csrf` from `src/worker.py` lines 19-25 (identical in
`src/poll/lambda.py` lines 18-24): GET the landing page,
`raise_for_status`, select the `meta[name="csrf-token"]` element and index
`["content"]` — indexing the `None` returned by `select_one` when the
element is absent raises `TypeError` — then set the session's
`x-csrf-token` header.  Returns the updated session headers. -/
def refresh_csrf (page : HtmlPage) (hs : Headers) : Except PyExc Headers :=
  if 400 ≤ page.status ∧ page.status < 600 then
    Except.error (PyExc.httpError page.status "")
  else
    match page.metaCsrfContent with
    | none => Except.error (PyExc.other "TypeError: NoneType is not subscriptable")
    | some tok => Except.ok (setHeader hs "x-csrf-token" tok)

namespace Worker

/-- The worker's lookback, `timedelta(minutes=15)`, in seconds. -/
def worker_lookback : Int := 15 * 60

/-- `since = datetime.utcnow() - timedelta(minutes=15)` at `src/worker.py`
line 143, as a function of the current clock reading (seconds). -/
def worker_since (now : Int) : Int := now - worker_lookback

/-- `fetch_hacktivity` from `src/worker.py` lines 28-45: POST the query
(the response, or a connection-level failure, is the argument),
`raise_for_status`, read `data.hacktivity_items.nodes` from the JSON
body, and keep exactly the nodes whose `__typename` is `"Disclosed"`. -/
def fetch_hacktivity (resp : Except PyExc HttpResponse) : Except PyExc (List Node) :=
  match resp with
  | .error e => .error e
  | .ok r =>
    match raise_for_status r with
    | .error e => .error e
    | .ok _ =>
      match r.jsonNodes with
      | none => .error (.other "JSONDecodeError")
      | some nodes => .ok (nodes.filter (fun n => n.typename == "Disclosed"))

/-- `event["report"]["_id"]` at `src/worker.py` line 156: a missing
`report` key or `_id` key raises `KeyError`. -/
def getReportId (e : Node) : Except PyExc String :=
  match e.reportOpt with
  | none => .error (.other "KeyError: report")
  | some r =>
    match r.idOpt with
    | none => .error (.other "KeyError: _id")
    | some i => .ok i

/-- Observable actions of one worker cycle: a fetch attempt carrying its
`since` value, a CSRF refresh, and a `post_slack` invocation carrying the
report identifier. -/
inductive Action where
  | fetchA (since : Int)
  | refreshA
  | forwardA (id : String)
deriving DecidableEq, Repr

/-- The per-cycle environment: the clock reading at the top of the cycle
and the network outcomes the cycle would observe — the first fetch's HTTP
response (or connection failure), the outcome of `refresh_csrf` were it
called, the retry fetch's response, and the outcome of `post_slack` for
each event. -/
structure CycleEnv where
  now : Int
  resp1 : Except PyExc HttpResponse
  refreshResult : Except PyExc Unit
  resp2 : Except PyExc HttpResponse
  forward : Node → Except PyExc Unit

/-- The fetch phase of one cycle, `src/worker.py` lines 144-152: try
`fetch_hacktivity`; on `HTTPError` with status exactly 500 and the
`"STANDARD_ERROR"` marker in the body, call `refresh_csrf` and fetch once
more; re-raise any other `HTTPError` and let any non-`HTTPError` pass
through.  Returns the events or the uncaught exception, with the trace of
fetch/refresh actions. -/
def fetchPhase (env : CycleEnv) : Except PyExc (List Node) × List Action :=
  let s := worker_since env.now
  match fetch_hacktivity env.resp1 with
  | .ok evs => (.ok evs, [.fetchA s])
  | .error e =>
    match e with
    | .httpError st body =>
      if st == 500 && hasStandardError body then
        match env.refreshResult with
        | .error e2 => (.error e2, [.fetchA s, .refreshA])
        | .ok _ => (fetch_hacktivity env.resp2, [.fetchA s, .refreshA, .fetchA s])
      else (.error (.httpError st body), [.fetchA s])
    | e2 => (.error e2, [.fetchA s])

/-- Result of processing one fetched batch: the (mutated-in-place) `seen`
set, the trace of `post_slack` invocations, and the exception that
escaped the `for` loop, if any. -/
structure ProcOut where
  seen : List String
  trace : List Action
  exc : Option PyExc
deriving DecidableEq, Repr

/-- The event loop of `src/worker.py` lines 154-163: for each event, read
`event["report"]["_id"]`; skip it when already in `seen`; otherwise add it
to `seen` and then call `post_slack`.  There is no per-event handler, so
the first exception (from the id lookup or from `post_slack`) aborts the
remaining events; `seen` keeps the additions made so far because Python
mutates it in place. -/
def processEvents (fwd : Node → Except PyExc Unit) :
    List Node → List String → ProcOut
  | [], seen => ⟨seen, [], none⟩
  | e :: rest, seen =>
    match getReportId e with
    | .error err => ⟨seen, [], some err⟩
    | .ok rid =>
      if rid ∈ seen then processEvents fwd rest seen
      else
        match fwd e with
        | .error err => ⟨rid :: seen, [.forwardA rid], some err⟩
        | .ok _ =>
          let out := processEvents fwd rest (rid :: seen)
          ⟨out.seen, .forwardA rid :: out.trace, out.exc⟩

/-- Result of one iteration of the `while True` loop body: the `seen` set
after the cycle, the cycle's action trace, and the exception that reached
the outer `try` handlers, if any. -/
structure CycleOut where
  seen : List String
  trace : List Action
  exc : Option PyExc
deriving DecidableEq, Repr

/-- One iteration of the worker's `while True` body (`src/worker.py`
lines 140-167): fetch (with the single CSRF retry), then process the
batch.  Any exception escaping either phase lands in `exc`, matching the
outer `except KeyboardInterrupt` / bare `except` pair. -/
def runCycle (env : CycleEnv) (seen : List String) : CycleOut :=
  match fetchPhase env with
  | (.error e, tr) => ⟨seen, tr, some e⟩
  | (.ok evs, tr) =>
    let p := processEvents env.forward evs seen
    ⟨p.seen, tr ++ p.trace, p.exc⟩

/-- The worker's `main` loop over a finite schedule of cycle
environments, starting from a given `seen` set: each cycle runs, a
`KeyboardInterrupt` breaks the loop (`src/worker.py` line 165), any other
exception is logged and the loop continues with the next cycle.  Returns
the final `seen` set and the concatenated trace. -/
def runLoop : List CycleEnv → List String → List String × List Action
  | [], seen => (seen, [])
  | env :: rest, seen =>
    let c := runCycle env seen
    if c.exc = some PyExc.keyboardInterrupt then (c.seen, c.trace)
    else
      let l := runLoop rest c.seen
      (l.1, c.trace ++ l.2)

/-- Is this action a `post_slack` invocation for the given identifier? -/
def isForwardTo (id : String) : Action → Bool
  | .forwardA i => i == id
  | _ => false

/-- Number of `post_slack` invocations for the given identifier in a
trace. -/
def forwardCount (tr : List Action) (id : String) : Nat :=
  tr.countP (isForwardTo id)

/-- Number of `refresh_csrf` invocations in a trace. -/
def refreshCount (tr : List Action) : Nat :=
  tr.countP (fun a => a matches .refreshA)

end Worker

namespace PollLambda

/-- The poll lambda's lookback, `timedelta(minutes=4)`, in seconds. -/
def lambda_lookback : Int := 4 * 60

/-- `since = datetime.utcnow() - timedelta(minutes=4)` at
`src/poll/lambda.py` line 51, as a function of the clock reading. -/
def lambda_since (now : Int) : Int := now - lambda_lookback

/-- `fetch_hacktivity` from `src/poll/lambda.py` lines 28-41: POST the
query, `raise_for_status`, and return `data.hacktivity_items.nodes`
as-is — this version applies no `__typename` filter. -/
def fetch_hacktivity (resp : Except PyExc HttpResponse) : Except PyExc (List Node) :=
  match resp with
  | .error e => .error e
  | .ok r =>
    match raise_for_status r with
    | .error e => .error e
    | .ok _ =>
      match r.jsonNodes with
      | none => .error (.other "JSONDecodeError")
      | some nodes => .ok nodes

/-- `event.get("report", {}).get("_id")` at `src/poll/lambda.py` line 58:
`get` with a default never raises, so a node without a `report` object or
without an `_id` field yields `None`. -/
def dedupIdOf (e : Node) : Option String :=
  match e.reportOpt with
  | none => none
  | some r => r.idOpt

/-- One `sqs.send_message` call: the serialized node as body, the
`MessageDeduplicationId`, and the `MessageGroupId`. -/
structure SqsMessage where
  body : Node
  dedupId : Option String
  groupId : String
deriving DecidableEq, Repr

/-- The message sent for one fetched node at `src/poll/lambda.py`
lines 55-60. -/
def sendOf (e : Node) : SqsMessage :=
  { body := e, dedupId := dedupIdOf e, groupId := "hacktivity" }

/-- Environment of one lambda invocation: clock reading, the outcome of
`refresh_csrf`, and the fetch's HTTP response (or connection failure). -/
structure LambdaEnv where
  now : Int
  refreshResult : Except PyExc Unit
  resp : Except PyExc HttpResponse

/-- Result of one lambda invocation: the SQS messages sent (or the
exception that escaped the handler) and the action trace. -/
structure LambdaOut where
  result : Except PyExc (List SqsMessage)
  trace : List Worker.Action

/-- `lambda_handler` from `src/poll/lambda.py` lines 44-60: refresh the
CSRF token first, compute `since = now - 4 minutes`, fetch all events,
and send each node to SQS in order. -/
def lambda_handler (env : LambdaEnv) : LambdaOut :=
  match env.refreshResult with
  | .error e => ⟨.error e, [.refreshA]⟩
  | .ok _ =>
    let s := lambda_since env.now
    match fetch_hacktivity env.resp with
    | .error e => ⟨.error e, [.refreshA, .fetchA s]⟩
    | .ok nodes => ⟨.ok (nodes.map sendOf), [.refreshA, .fetchA s]⟩

end PollLambda

/-- Fixture: a Disclosed node with report id "X". -/
def nodeX : Node := ⟨"Disclosed", some ⟨some "X"⟩⟩

/-- Fixture: a Disclosed node with report id "Y". -/
def nodeY : Node := ⟨"Disclosed", some ⟨some "Y"⟩⟩

/-- Fixture: a Disclosed node with report id "A". -/
def nodeA : Node := ⟨"Disclosed", some ⟨some "A"⟩⟩

/-- Fixture: a node with a non-Disclosed discriminator. -/
def nodeOther : Node := ⟨"Other", some ⟨some "B"⟩⟩

/-- Fixture: a Disclosed node with report id "C". -/
def nodeC : Node := ⟨"Disclosed", some ⟨some "C"⟩⟩

/-- Fixture: a Disclosed node whose JSON object has no report field. -/
def nodeNoReport : Node := ⟨"Disclosed", none⟩

/-- Fixture: a 200 response carrying the given nodes. -/
def okResp (ns : List Node) : HttpResponse := ⟨200, "", some ns⟩

/-- Fixture: a forward that always succeeds. -/
def fwdOk : Node → Except PyExc Unit := fun _ => Except.ok ()

/-- Fixture: a forward that fails with a delivery error for report id
"X" and succeeds otherwise. -/
def failOnX : Node → Except PyExc Unit := fun n =>
  match n.reportOpt with
  | some r =>
    if r.idOpt = some "X" then Except.error (PyExc.other "DeliveryError")
    else Except.ok ()
  | none => Except.ok ()

/-- Fixture: a worker cycle environment with a successful fetch of the
given nodes and the given forward behaviour. -/
def envWith (ns : List Node) (fwd : Node → Except PyExc Unit) : Worker.CycleEnv :=
  { now := 0, resp1 := Except.ok (okResp ns), refreshResult := Except.ok (),
    resp2 := Except.ok (okResp []), forward := fwd }

/-- Fixture: a worker cycle environment whose first fetch fails with
status 500 and the standard-error marker in the body, and whose retry
succeeds with an empty batch. -/
def envRetry : Worker.CycleEnv :=
  { now := 0, resp1 := Except.ok ⟨500, "a \"STANDARD_ERROR\" b", none⟩,
    refreshResult := Except.ok (), resp2 := Except.ok (okResp []), forward := fwdOk }

namespace Worker

/-- An action tests as a forward to `id` exactly when it is
`forwardA id`. -/
theorem isForwardTo_iff (id : String) (a : Action) :
    isForwardTo id a = true ↔ a = Action.forwardA id := by
  cases a with
  | fetchA s => simp [isForwardTo]
  | refreshA => simp [isForwardTo]
  | forwardA i => simp only [isForwardTo, beq_iff_eq, Action.forwardA.injEq]

/-- A trace contains a forward to `id` exactly when its forward count for
`id` is positive. -/
theorem forwardCount_pos_iff (tr : List Action) (id : String) :
    0 < forwardCount tr id ↔ Action.forwardA id ∈ tr := by
  simp [forwardCount, List.countP_pos_iff, isForwardTo_iff]

/-- Equation: an event whose id lookup raises aborts the batch. -/
theorem processEvents_cons_err (fwd : Node → Except PyExc Unit) (e : Node)
    (rest : List Node) (seen : List String) (err : PyExc)
    (hg : getReportId e = .error err) :
    processEvents fwd (e :: rest) seen = ⟨seen, [], some err⟩ := by
  simp [processEvents, hg]

/-- Equation: an already-seen event is skipped with no side effect. -/
theorem processEvents_cons_skip (fwd : Node → Except PyExc Unit) (e : Node)
    (rest : List Node) (seen : List String) (rid : String)
    (hg : getReportId e = .ok rid) (hmem : rid ∈ seen) :
    processEvents fwd (e :: rest) seen = processEvents fwd rest seen := by
  simp [processEvents, hg, hmem]

/-- Equation: a fresh event whose forward fails is added to `seen` first,
and the failure aborts the rest of the batch. -/
theorem processEvents_cons_fail (fwd : Node → Except PyExc Unit) (e : Node)
    (rest : List Node) (seen : List String) (rid : String) (err : PyExc)
    (hg : getReportId e = .ok rid) (hmem : rid ∉ seen) (hf : fwd e = .error err) :
    processEvents fwd (e :: rest) seen =
      ⟨rid :: seen, [Action.forwardA rid], some err⟩ := by
  simp [processEvents, hg, hmem, hf]

/-- Equation: a fresh event whose forward succeeds is added to `seen` and
the batch continues. -/
theorem processEvents_cons_ok (fwd : Node → Except PyExc Unit) (e : Node)
    (rest : List Node) (seen : List String) (rid : String)
    (hg : getReportId e = .ok rid) (hmem : rid ∉ seen) (hf : fwd e = .ok ()) :
    processEvents fwd (e :: rest) seen =
      ⟨(processEvents fwd rest (rid :: seen)).seen,
       Action.forwardA rid :: (processEvents fwd rest (rid :: seen)).trace,
       (processEvents fwd rest (rid :: seen)).exc⟩ := by
  simp [processEvents, hg, hmem, hf]

/-- Processing a batch never removes identifiers from `seen`. -/
theorem processEvents_seen_mono (fwd : Node → Except PyExc Unit) (evs : List Node)
    (seen : List String) (id : String) (h : id ∈ seen) :
    id ∈ (processEvents fwd evs seen).seen := by
  induction evs generalizing seen with
  | nil => simpa [processEvents] using h
  | cons e rest ih =>
    cases hg : getReportId e with
    | error err => rw [processEvents_cons_err fwd e rest seen err hg]; exact h
    | ok rid =>
      by_cases hmem : rid ∈ seen
      · rw [processEvents_cons_skip fwd e rest seen rid hg hmem]
        exact ih seen h
      · cases hf : fwd e with
        | error err =>
          rw [processEvents_cons_fail fwd e rest seen rid err hg hmem hf]
          exact List.mem_cons_of_mem _ h
        | ok u =>
          cases u
          rw [processEvents_cons_ok fwd e rest seen rid hg hmem hf]
          exact ih _ (List.mem_cons_of_mem _ h)

/-- An identifier already in `seen` is never forwarded while processing a
batch. -/
theorem processEvents_fc_zero (fwd : Node → Except PyExc Unit) (evs : List Node)
    (seen : List String) (id : String) (h : id ∈ seen) :
    forwardCount (processEvents fwd evs seen).trace id = 0 := by
  induction evs generalizing seen with
  | nil => simp [processEvents, forwardCount]
  | cons e rest ih =>
    cases hg : getReportId e with
    | error err =>
      rw [processEvents_cons_err fwd e rest seen err hg]
      simp [forwardCount]
    | ok rid =>
      by_cases hmem : rid ∈ seen
      · rw [processEvents_cons_skip fwd e rest seen rid hg hmem]
        exact ih seen h
      · have hne : rid ≠ id := fun he => hmem (he ▸ h)
        cases hf : fwd e with
        | error err =>
          rw [processEvents_cons_fail fwd e rest seen rid err hg hmem hf]
          simp [forwardCount, isForwardTo, hne]
        | ok u =>
          cases u
          rw [processEvents_cons_ok fwd e rest seen rid hg hmem hf]
          have h1 := ih (rid :: seen) (List.mem_cons_of_mem _ h)
          simp only [forwardCount, List.countP_cons] at h1 ⊢
          simp [h1, isForwardTo, hne]

/-- While processing a batch, any identifier is forwarded at most once. -/
theorem processEvents_fc_le_one (fwd : Node → Except PyExc Unit) (evs : List Node)
    (seen : List String) (id : String) :
    forwardCount (processEvents fwd evs seen).trace id ≤ 1 := by
  induction evs generalizing seen with
  | nil => simp [processEvents, forwardCount]
  | cons e rest ih =>
    cases hg : getReportId e with
    | error err =>
      rw [processEvents_cons_err fwd e rest seen err hg]
      simp [forwardCount]
    | ok rid =>
      by_cases hmem : rid ∈ seen
      · rw [processEvents_cons_skip fwd e rest seen rid hg hmem]
        exact ih seen
      · cases hf : fwd e with
        | error err =>
          rw [processEvents_cons_fail fwd e rest seen rid err hg hmem hf]
          simp only [forwardCount, List.countP_cons, List.countP_nil]
          split <;> simp
        | ok u =>
          cases u
          rw [processEvents_cons_ok fwd e rest seen rid hg hmem hf]
          simp only [forwardCount, List.countP_cons]
          by_cases hid : rid = id
          · subst hid
            have h0 := processEvents_fc_zero fwd rest (rid :: seen) rid
              (List.mem_cons_self _ _)
            simp only [forwardCount] at h0
            simp [h0, isForwardTo]
          · have h1 := ih (rid :: seen)
            simp only [forwardCount] at h1
            simpa [isForwardTo, hid] using h1

/-- Equation: a successful first fetch ends the fetch phase. -/
theorem fetchPhase_ok (env : CycleEnv) (evs : List Node)
    (h : fetch_hacktivity env.resp1 = .ok evs) :
    fetchPhase env = (.ok evs, [Action.fetchA (worker_since env.now)]) := by
  simp [fetchPhase, h]

/-- Equation: an `HTTPError` that is not status 500 with the marker is
re-raised without a refresh. -/
theorem fetchPhase_err_http_noretry (env : CycleEnv) (st : Nat) (body : String)
    (h : fetch_hacktivity env.resp1 = .error (.httpError st body))
    (hc : (st == 500 && hasStandardError body) = false) :
    fetchPhase env =
      (.error (.httpError st body), [Action.fetchA (worker_since env.now)]) := by
  simp [fetchPhase, h, hc]

/-- Equation: on the retry path, a failing `refresh_csrf` propagates its
own exception. -/
theorem fetchPhase_retry_refresh_fail (env : CycleEnv) (st : Nat) (body : String)
    (e2 : PyExc) (h : fetch_hacktivity env.resp1 = .error (.httpError st body))
    (hc : (st == 500 && hasStandardError body) = true)
    (hr : env.refreshResult = .error e2) :
    fetchPhase env =
      (.error e2, [Action.fetchA (worker_since env.now), Action.refreshA]) := by
  simp [fetchPhase, h, hc, hr]

/-- Equation: status 500 with the marker triggers exactly one refresh and
one re-fetch, whose result is final. -/
theorem fetchPhase_retry (env : CycleEnv) (st : Nat) (body : String)
    (h : fetch_hacktivity env.resp1 = .error (.httpError st body))
    (hc : (st == 500 && hasStandardError body) = true)
    (hr : env.refreshResult = .ok ()) :
    fetchPhase env =
      (fetch_hacktivity env.resp2,
       [Action.fetchA (worker_since env.now), Action.refreshA,
        Action.fetchA (worker_since env.now)]) := by
  simp [fetchPhase, h, hc, hr]

/-- Equation: a non-`HTTPError` fetch failure skips the handler
entirely. -/
theorem fetchPhase_err_other (env : CycleEnv) (e : PyExc)
    (h : fetch_hacktivity env.resp1 = .error e)
    (hne : ∀ st body, e ≠ PyExc.httpError st body) :
    fetchPhase env = (.error e, [Action.fetchA (worker_since env.now)]) := by
  cases e with
  | httpError st body => exact absurd rfl (hne st body)
  | keyboardInterrupt => simp [fetchPhase, h]
  | other m => simp [fetchPhase, h]

/-- The fetch phase trace is one of three shapes, each starting with a
fetch carrying this cycle's `since` value. -/
theorem fetchPhase_trace (env : CycleEnv) :
    (fetchPhase env).2 = [Action.fetchA (worker_since env.now)] ∨
    (fetchPhase env).2 = [Action.fetchA (worker_since env.now), Action.refreshA] ∨
    (fetchPhase env).2 = [Action.fetchA (worker_since env.now), Action.refreshA,
      Action.fetchA (worker_since env.now)] := by
  cases hr : fetch_hacktivity env.resp1 with
  | ok evs => rw [fetchPhase_ok env evs hr]; left; rfl
  | error e =>
    cases e with
    | httpError st body =>
      by_cases hc : (st == 500 && hasStandardError body) = true
      · cases hrr : env.refreshResult with
        | error e2 =>
          rw [fetchPhase_retry_refresh_fail env st body e2 hr hc hrr]
          right; left; rfl
        | ok u =>
          cases u
          rw [fetchPhase_retry env st body hr hc hrr]
          right; right; rfl
      · rw [fetchPhase_err_http_noretry env st body hr (by simpa using hc)]
        left; rfl
    | keyboardInterrupt =>
      rw [fetchPhase_err_other env _ hr (by intro st body h; cases h)]
      left; rfl
    | other m =>
      rw [fetchPhase_err_other env _ hr (by intro st body h; cases h)]
      left; rfl

/-- The fetch phase performs no forwards. -/
theorem fetchPhase_fc_zero (env : CycleEnv) (id : String) :
    forwardCount (fetchPhase env).2 id = 0 := by
  rcases fetchPhase_trace env with h | h | h <;>
    simp [h, forwardCount, isForwardTo]

/-- The first action of the fetch phase is always the fetch itself. -/
theorem fetchPhase_head (env : CycleEnv) :
    (fetchPhase env).2.head? = some (Action.fetchA (worker_since env.now)) := by
  rcases fetchPhase_trace env with h | h | h <;> simp [h]

/-- An identifier forwarded during batch processing is in `seen`
afterwards (it is added before `post_slack` is called, so this holds even
when the forward fails). -/
theorem processEvents_mem_of_fc_pos (fwd : Node → Except PyExc Unit) (evs : List Node)
    (seen : List String) (id : String)
    (h : 0 < forwardCount (processEvents fwd evs seen).trace id) :
    id ∈ (processEvents fwd evs seen).seen := by
  induction evs generalizing seen with
  | nil => simp [processEvents, forwardCount] at h
  | cons e rest ih =>
    cases hg : getReportId e with
    | error err =>
      rw [processEvents_cons_err fwd e rest seen err hg] at h
      simp [forwardCount] at h
    | ok rid =>
      by_cases hmem : rid ∈ seen
      · rw [processEvents_cons_skip fwd e rest seen rid hg hmem] at h ⊢
        exact ih seen h
      · cases hf : fwd e with
        | error err =>
          rw [processEvents_cons_fail fwd e rest seen rid err hg hmem hf] at h ⊢
          by_cases hid : rid = id
          · exact hid ▸ List.mem_cons_self _ _
          · simp [forwardCount, isForwardTo, hid] at h
        | ok u =>
          cases u
          rw [processEvents_cons_ok fwd e rest seen rid hg hmem hf] at h ⊢
          by_cases hid : rid = id
          · exact processEvents_seen_mono fwd rest (rid :: seen) id
              (hid ▸ List.mem_cons_self _ _)
          · have hpos : 0 < forwardCount (processEvents fwd rest (rid :: seen)).trace id := by
              simpa [forwardCount, List.countP_cons, isForwardTo, hid] using h
            exact ih (rid :: seen) hpos

/-- The retry condition, as a Bool test and as a proposition. -/
theorem retry_cond_iff (st : Nat) (body : String) :
    ((st == 500 && hasStandardError body) = true) ↔
      (st = 500 ∧ hasStandardError body = true) := by
  simp [Bool.and_eq_true]

/-- Every action in a batch-processing trace is a forward. -/
theorem processEvents_trace_forwards (fwd : Node → Except PyExc Unit)
    (evs : List Node) (seen : List String) :
    ∀ a ∈ (processEvents fwd evs seen).trace, ∃ rid, a = Action.forwardA rid := by
  induction evs generalizing seen with
  | nil => intro a ha; simp [processEvents] at ha
  | cons e rest ih =>
    intro a ha
    cases hg : getReportId e with
    | error err =>
      rw [processEvents_cons_err fwd e rest seen err hg] at ha
      simp at ha
    | ok rid =>
      by_cases hmem : rid ∈ seen
      · rw [processEvents_cons_skip fwd e rest seen rid hg hmem] at ha
        exact ih seen a ha
      · cases hf : fwd e with
        | error err =>
          rw [processEvents_cons_fail fwd e rest seen rid err hg hmem hf] at ha
          simp at ha
          exact ⟨rid, ha⟩
        | ok u =>
          cases u
          rw [processEvents_cons_ok fwd e rest seen rid hg hmem hf] at ha
          rcases List.mem_cons.1 ha with h1 | h1
          · exact ⟨rid, h1⟩
          · exact ih (rid :: seen) a h1

/-- A refresh in the fetch-phase trace forces the classified failure:
the first fetch raised `HTTPError` with status 500 and the marker. -/
theorem fetchPhase_refresh_mem (env : CycleEnv)
    (h : Action.refreshA ∈ (fetchPhase env).2) :
    ∃ body, fetch_hacktivity env.resp1 = .error (.httpError 500 body) ∧
      hasStandardError body = true := by
  cases hr : fetch_hacktivity env.resp1 with
  | ok evs =>
    rw [fetchPhase_ok env evs hr] at h
    simp at h
  | error e =>
    cases e with
    | httpError st body =>
      by_cases hc : (st == 500 && hasStandardError body) = true
      · rcases (retry_cond_iff st body).1 hc with ⟨h5, hm⟩
        subst h5
        exact ⟨body, rfl, hm⟩
      · rw [fetchPhase_err_http_noretry env st body hr (by simpa using hc)] at h
        simp at h
    | keyboardInterrupt =>
      rw [fetchPhase_err_other env _ hr (by intro st body hh; cases hh)] at h
      simp at h
    | other m =>
      rw [fetchPhase_err_other env _ hr (by intro st body hh; cases hh)] at h
      simp at h

/-- Looking up a header just set returns the new value. -/
theorem getHeader_setHeader (hs : Headers) (k v : String) :
    getHeader (setHeader hs k v) k = some v := by
  simp [getHeader, setHeader]

/-- Equation: a cycle whose fetch phase raises leaves `seen` unchanged. -/
theorem runCycle_err (env : CycleEnv) (seen : List String) (e : PyExc)
    (tr : List Action) (h : fetchPhase env = (.error e, tr)) :
    runCycle env seen = ⟨seen, tr, some e⟩ := by
  simp [runCycle, h]

/-- Equation: a cycle with a successful fetch processes the batch. -/
theorem runCycle_ok (env : CycleEnv) (seen : List String) (evs : List Node)
    (tr : List Action) (h : fetchPhase env = (.ok evs, tr)) :
    runCycle env seen = ⟨(processEvents env.forward evs seen).seen,
      tr ++ (processEvents env.forward evs seen).trace,
      (processEvents env.forward evs seen).exc⟩ := by
  simp [runCycle, h]

/-- Every action of a cycle trace is either from the fetch phase or a
forward. -/
theorem runCycle_trace_mem (env : CycleEnv) (seen : List String) (a : Action)
    (ha : a ∈ (runCycle env seen).trace) :
    a ∈ (fetchPhase env).2 ∨ ∃ rid, a = Action.forwardA rid := by
  rcases hf : fetchPhase env with ⟨res, tr⟩
  cases res with
  | error e =>
    rw [runCycle_err env seen e tr hf] at ha
    left; simpa using ha
  | ok evs =>
    rw [runCycle_ok env seen evs tr hf] at ha
    rcases List.mem_append.1 ha with h1 | h1
    · left; simpa using h1
    · right; exact processEvents_trace_forwards env.forward evs seen a h1

/-- The first action of every cycle is the fetch with this cycle's
window. -/
theorem runCycle_trace_head (env : CycleEnv) (seen : List String) :
    (runCycle env seen).trace.head? =
      some (Action.fetchA (worker_since env.now)) := by
  rcases hf : fetchPhase env with ⟨res, tr⟩
  have hhead : tr.head? = some (Action.fetchA (worker_since env.now)) := by
    have h0 := fetchPhase_head env
    rw [hf] at h0
    exact h0
  cases res with
  | error e =>
    rw [runCycle_err env seen e tr hf]
    exact hhead
  | ok evs =>
    rw [runCycle_ok env seen evs tr hf]
    show (tr ++ _).head? = _
    cases tr with
    | nil => simp at hhead
    | cons a t => simpa using hhead

/-- Every fetch action of a cycle trace carries `now − lookback` for this
cycle's clock reading. -/
theorem runCycle_fetch_since (env : CycleEnv) (seen : List String) (s : Int)
    (h : Action.fetchA s ∈ (runCycle env seen).trace) :
    s = worker_since env.now := by
  rcases runCycle_trace_mem env seen _ h with h1 | ⟨rid, h1⟩
  · rcases fetchPhase_trace env with h2 | h2 | h2 <;> rw [h2] at h1 <;>
      simpa using h1
  · cases h1

/-- A cycle never removes identifiers from `seen`. -/
theorem runCycle_seen_mono (env : CycleEnv) (seen : List String) (id : String)
    (h : id ∈ seen) : id ∈ (runCycle env seen).seen := by
  rcases hf : fetchPhase env with ⟨res, tr⟩
  cases res with
  | error e => rw [runCycle_err env seen e tr hf]; exact h
  | ok evs =>
    rw [runCycle_ok env seen evs tr hf]
    exact processEvents_seen_mono env.forward evs seen id h

/-- An identifier already in `seen` is never forwarded during a cycle. -/
theorem runCycle_fc_zero (env : CycleEnv) (seen : List String) (id : String)
    (h : id ∈ seen) : forwardCount (runCycle env seen).trace id = 0 := by
  rcases hf : fetchPhase env with ⟨res, tr⟩
  have htr : forwardCount tr id = 0 := by
    have h0 := fetchPhase_fc_zero env id
    rw [hf] at h0; exact h0
  cases res with
  | error e => rw [runCycle_err env seen e tr hf]; exact htr
  | ok evs =>
    rw [runCycle_ok env seen evs tr hf]
    have h2 := processEvents_fc_zero env.forward evs seen id h
    simp only [forwardCount, List.countP_append] at htr h2 ⊢
    omega

/-- Any identifier is forwarded at most once during a cycle. -/
theorem runCycle_fc_le_one (env : CycleEnv) (seen : List String) (id : String) :
    forwardCount (runCycle env seen).trace id ≤ 1 := by
  rcases hf : fetchPhase env with ⟨res, tr⟩
  have htr : forwardCount tr id = 0 := by
    have h0 := fetchPhase_fc_zero env id
    rw [hf] at h0; exact h0
  cases res with
  | error e =>
    rw [runCycle_err env seen e tr hf]
    show forwardCount tr id ≤ 1
    rw [htr]
    exact Nat.zero_le 1
  | ok evs =>
    rw [runCycle_ok env seen evs tr hf]
    have h2 := processEvents_fc_le_one env.forward evs seen id
    simp only [forwardCount, List.countP_append] at htr h2 ⊢
    omega

/-- An identifier forwarded during a cycle is in `seen` afterwards. -/
theorem runCycle_mem_of_fc_pos (env : CycleEnv) (seen : List String) (id : String)
    (h : 0 < forwardCount (runCycle env seen).trace id) :
    id ∈ (runCycle env seen).seen := by
  rcases hf : fetchPhase env with ⟨res, tr⟩
  have htr : forwardCount tr id = 0 := by
    have h0 := fetchPhase_fc_zero env id
    rw [hf] at h0; exact h0
  cases res with
  | error e =>
    rw [runCycle_err env seen e tr hf] at h
    simp only at h
    omega
  | ok evs =>
    rw [runCycle_ok env seen evs tr hf] at h ⊢
    have hpos : 0 < forwardCount (processEvents env.forward evs seen).trace id := by
      simp only [forwardCount, List.countP_append] at h htr ⊢
      omega
    exact processEvents_mem_of_fc_pos env.forward evs seen id hpos

/-- Equation: a `KeyboardInterrupt` inside the cycle breaks the loop. -/
theorem runLoop_cons_break (env : CycleEnv) (rest : List CycleEnv)
    (seen : List String)
    (h : (runCycle env seen).exc = some PyExc.keyboardInterrupt) :
    runLoop (env :: rest) seen =
      ((runCycle env seen).seen, (runCycle env seen).trace) := by
  simp [runLoop, h]

/-- Equation: any other cycle outcome continues with the next cycle. -/
theorem runLoop_cons_cont (env : CycleEnv) (rest : List CycleEnv)
    (seen : List String)
    (h : (runCycle env seen).exc ≠ some PyExc.keyboardInterrupt) :
    runLoop (env :: rest) seen =
      ((runLoop rest (runCycle env seen).seen).1,
       (runCycle env seen).trace ++ (runLoop rest (runCycle env seen).seen).2) := by
  simp [runLoop, h]

/-- An identifier already in `seen` is never forwarded for the rest of
the run. -/
theorem runLoop_fc_zero (envs : List CycleEnv) (seen : List String) (id : String)
    (h : id ∈ seen) : forwardCount (runLoop envs seen).2 id = 0 := by
  induction envs generalizing seen with
  | nil => simp [runLoop, forwardCount]
  | cons env rest ih =>
    by_cases hb : (runCycle env seen).exc = some PyExc.keyboardInterrupt
    · rw [runLoop_cons_break env rest seen hb]
      exact runCycle_fc_zero env seen id h
    · rw [runLoop_cons_cont env rest seen hb]
      have h1 := runCycle_fc_zero env seen id h
      have h2 := ih ((runCycle env seen).seen) (runCycle_seen_mono env seen id h)
      simp only [forwardCount, List.countP_append] at h1 h2 ⊢
      omega

/-- Across any whole run of the loop, any identifier is forwarded at most
once. -/
theorem runLoop_fc_le_one (envs : List CycleEnv) (seen : List String)
    (id : String) : forwardCount (runLoop envs seen).2 id ≤ 1 := by
  induction envs generalizing seen with
  | nil => simp [runLoop, forwardCount]
  | cons env rest ih =>
    by_cases hb : (runCycle env seen).exc = some PyExc.keyboardInterrupt
    · rw [runLoop_cons_break env rest seen hb]
      exact runCycle_fc_le_one env seen id
    · rw [runLoop_cons_cont env rest seen hb]
      have h1 := runCycle_fc_le_one env seen id
      by_cases hpos : 0 < forwardCount (runCycle env seen).trace id
      · have hmem := runCycle_mem_of_fc_pos env seen id hpos
        have h2 := runLoop_fc_zero rest ((runCycle env seen).seen) id hmem
        simp only [forwardCount, List.countP_append] at h1 h2 hpos ⊢
        omega
      · have h2 := ih ((runCycle env seen).seen)
        simp only [forwardCount, List.countP_append] at h1 h2 hpos ⊢
        omega

end Worker

namespace PollLambda

/-- The poll lambda's trace is the refresh alone (when it raises) or the
refresh followed by the single fetch. -/
theorem lambda_trace (env : LambdaEnv) :
    (lambda_handler env).trace = [Worker.Action.refreshA] ∨
    (lambda_handler env).trace =
      [Worker.Action.refreshA, Worker.Action.fetchA (lambda_since env.now)] := by
  cases h : env.refreshResult with
  | error e => left; simp [lambda_handler, h]
  | ok u =>
    cases u
    cases h2 : fetch_hacktivity env.resp with
    | error e => right; simp [lambda_handler, h, h2]
    | ok nodes => right; simp [lambda_handler, h, h2]

end PollLambda

/-- Claim C1 as written is false on the code: `seen.add(report_id)` runs
*before* `post_slack`, so with an empty ledger and a single fetched event
with identifier "X" whose forward fails with a delivery error, "X" is in
the ledger after the cycle, and a later cycle that re-fetches "X" does
not forward it again. -/
theorem claim_C1_counterexample :
    "X" ∈ (Worker.runCycle (envWith [nodeX] failOnX) []).seen ∧
    (Worker.runCycle (envWith [nodeX] failOnX) []).exc =
      some (PyExc.other "DeliveryError") ∧
    Worker.forwardCount
      (Worker.runCycle (envWith [nodeX] failOnX)
        (Worker.runCycle (envWith [nodeX] failOnX) []).seen).trace "X" = 0 := by
  refine ⟨?_, ?_, ?_⟩ <;> decide

/-- Claim C1 amended: the ledger is updated *before* the forward
operation, not after a successful one.  Whenever `post_slack` is invoked
for an identifier during a cycle — whether the delivery succeeds or
fails — that identifier is in the ledger immediately afterwards, and no
later sequence of cycles forwards it ever again. -/
theorem claim_C1_ledger_updated_before_forward (env : Worker.CycleEnv)
    (seen : List String) (id : String)
    (h : Worker.Action.forwardA id ∈ (Worker.runCycle env seen).trace) :
    id ∈ (Worker.runCycle env seen).seen ∧
    ∀ envs : List Worker.CycleEnv,
      Worker.forwardCount
        (Worker.runLoop envs (Worker.runCycle env seen).seen).2 id = 0 := by
  have hpos : 0 < Worker.forwardCount (Worker.runCycle env seen).trace id :=
    (Worker.forwardCount_pos_iff _ id).2 h
  have hmem := Worker.runCycle_mem_of_fc_pos env seen id hpos
  exact ⟨hmem, fun envs => Worker.runLoop_fc_zero envs _ id hmem⟩

/-- Witness for the amended C1 at a concrete failing delivery. -/
theorem claim_C1_ledger_updated_before_forward_witness :
    Worker.Action.forwardA "X" ∈
      (Worker.runCycle (envWith [nodeX] failOnX) []).trace ∧
    ("X" ∈ (Worker.runCycle (envWith [nodeX] failOnX) []).seen ∧
     ∀ envs : List Worker.CycleEnv,
       Worker.forwardCount
         (Worker.runLoop envs
           (Worker.runCycle (envWith [nodeX] failOnX) []).seen).2 "X" = 0) :=
  ⟨by decide,
   claim_C1_ledger_updated_before_forward (envWith [nodeX] failOnX) [] "X" (by decide)⟩

/-- Claim C2: across any whole run of the worker (any finite schedule of
cycle environments, starting from the empty ledger), `post_slack` is
invoked at most once for any given report identifier, regardless of how
many overlapping fetch windows return an event with that identifier.  The
code guarantees this even without the claim's proviso that the first
forward succeeded, because the ledger is updated before the forward. -/
theorem claim_C2_forward_at_most_once (envs : List Worker.CycleEnv) (id : String) :
    Worker.forwardCount (Worker.runLoop envs []).2 id ≤ 1 :=
  Worker.runLoop_fc_le_one envs [] id

/-- Claim C3 as written is false on the code: there is no per-event
handler inside the batch loop, so with a batch [X, Y] in which
forwarding X fails, Y is neither forwarded nor recorded in that cycle. -/
theorem claim_C3_counterexample :
    Worker.Action.forwardA "Y" ∉
      (Worker.runCycle (envWith [nodeX, nodeY] failOnX) []).trace ∧
    "Y" ∉ (Worker.runCycle (envWith [nodeX, nodeY] failOnX) []).seen := by
  refine ⟨?_, ?_⟩ <;> decide

/-- Claim C3 amended: a forward failure (or any unhandled per-event
error) aborts the remainder of the batch for that cycle: the cycle's
trace ends at the failing forward, the ledger gains only the failing
event's identifier, and the error is what reaches the top of the loop.
The skipped events stay out of the ledger, so later overlapping cycles
can still process them. -/
theorem claim_C3_forward_failure_aborts_batch (env : Worker.CycleEnv)
    (seen : List String) (e : Node) (rest : List Node) (rid : String) (err : PyExc)
    (hfetch : Worker.fetch_hacktivity env.resp1 = .ok (e :: rest))
    (hg : Worker.getReportId e = .ok rid) (hmem : rid ∉ seen)
    (hf : env.forward e = .error err) :
    (Worker.runCycle env seen).seen = rid :: seen ∧
    (Worker.runCycle env seen).trace =
      [Worker.Action.fetchA (Worker.worker_since env.now),
       Worker.Action.forwardA rid] ∧
    (Worker.runCycle env seen).exc = some err := by
  rw [Worker.runCycle_ok env seen (e :: rest) _ (Worker.fetchPhase_ok env _ hfetch)]
  rw [Worker.processEvents_cons_fail env.forward e rest seen rid err hg hmem hf]
  exact ⟨rfl, rfl, rfl⟩

/-- Witness for the amended C3 at a concrete batch [X, Y] with X's
delivery failing. -/
theorem claim_C3_forward_failure_aborts_batch_witness :
    (Worker.runCycle (envWith [nodeX, nodeY] failOnX) []).seen = ["X"] ∧
    (Worker.runCycle (envWith [nodeX, nodeY] failOnX) []).trace =
      [Worker.Action.fetchA (Worker.worker_since (envWith [nodeX, nodeY] failOnX).now),
       Worker.Action.forwardA "X"] ∧
    (Worker.runCycle (envWith [nodeX, nodeY] failOnX) []).exc =
      some (PyExc.other "DeliveryError") :=
  claim_C3_forward_failure_aborts_batch (envWith [nodeX, nodeY] failOnX) []
    nodeX [nodeY] "X" (PyExc.other "DeliveryError") rfl rfl
    (by decide) rfl

/-- Claim C4: a failed fetch triggers the single refresh-and-refetch path
exactly when the failure is an `HTTPError` with status exactly 500 whose
body contains the `"STANDARD_ERROR"` marker; any other `HTTPError`, and
any non-`HTTPError` failure, produces no refresh and ends the fetch phase
at once; and the retry's outcome is final — a second failure ends the
cycle with `seen` unchanged. -/
theorem claim_C4_retry_iff_500_standard_error (env : Worker.CycleEnv) :
    (∀ st body,
      Worker.fetch_hacktivity env.resp1 = Except.error (PyExc.httpError st body) →
      ((st = 500 ∧ hasStandardError body = true) →
        env.refreshResult = Except.ok () →
        Worker.fetchPhase env =
          (Worker.fetch_hacktivity env.resp2,
           [Worker.Action.fetchA (Worker.worker_since env.now), Worker.Action.refreshA,
            Worker.Action.fetchA (Worker.worker_since env.now)])) ∧
      (¬(st = 500 ∧ hasStandardError body = true) →
        Worker.fetchPhase env =
          (Except.error (PyExc.httpError st body),
           [Worker.Action.fetchA (Worker.worker_since env.now)]))) ∧
    (∀ e, (∀ st body, e ≠ PyExc.httpError st body) →
      Worker.fetch_hacktivity env.resp1 = Except.error e →
      Worker.fetchPhase env =
        (Except.error e, [Worker.Action.fetchA (Worker.worker_since env.now)])) ∧
    (∀ evs, Worker.fetch_hacktivity env.resp1 = Except.ok evs →
      Worker.refreshCount (Worker.fetchPhase env).2 = 0) ∧
    (∀ seen e2 tr, Worker.fetchPhase env = (Except.error e2, tr) →
      (Worker.runCycle env seen).seen = seen ∧
      (Worker.runCycle env seen).exc = some e2) := by
  refine ⟨?_, ?_, ?_, ?_⟩
  · intro st body hr
    constructor
    · rintro ⟨h5, hm⟩ hok
      exact Worker.fetchPhase_retry env st body hr
        ((Worker.retry_cond_iff st body).2 ⟨h5, hm⟩) hok
    · intro hn
      have hc : (st == 500 && hasStandardError body) = false := by
        rcases Bool.eq_false_or_eq_true (st == 500 && hasStandardError body)
          with h | h
        · exact absurd ((Worker.retry_cond_iff st body).1 h) hn
        · exact h
      exact Worker.fetchPhase_err_http_noretry env st body hr hc
  · intro e hne hr
    exact Worker.fetchPhase_err_other env e hr hne
  · intro evs hr
    rw [Worker.fetchPhase_ok env evs hr]
    rfl
  · intro seen e2 tr h
    rw [Worker.runCycle_err env seen e2 tr h]
    exact ⟨rfl, rfl⟩

/-- Witness for C4 at a concrete 500 response carrying the marker. -/
theorem claim_C4_retry_iff_500_standard_error_witness :
    Worker.fetchPhase envRetry =
      (Worker.fetch_hacktivity envRetry.resp2,
       [Worker.Action.fetchA (Worker.worker_since envRetry.now), Worker.Action.refreshA,
        Worker.Action.fetchA (Worker.worker_since envRetry.now)]) :=
  (((claim_C4_retry_iff_500_standard_error envRetry).1 500
      "a \"STANDARD_ERROR\" b" rfl).1 ⟨rfl, by decide⟩) rfl

/-- Claim C5 as written is false for the poll lambda's fetch operation
(`src/poll/lambda.py`), which applies no `__typename` filter: a fetched
batch with discriminators Disclosed/Other/Disclosed is returned whole,
and the non-Disclosed node is sent to the queue like the others. -/
theorem claim_C5_counterexample :
    PollLambda.fetch_hacktivity (Except.ok (okResp [nodeA, nodeOther, nodeC])) =
      Except.ok [nodeA, nodeOther, nodeC] ∧
    nodeOther.typename ≠ "Disclosed" ∧
    (PollLambda.lambda_handler
        ⟨0, Except.ok (), Except.ok (okResp [nodeA, nodeOther, nodeC])⟩).result =
      Except.ok
        [PollLambda.sendOf nodeA, PollLambda.sendOf nodeOther,
         PollLambda.sendOf nodeC] :=
  ⟨rfl, by decide, rfl⟩

/-- Claim C5 amended: the *worker's* fetch operation returns exactly the
nodes of `data.hacktivity_items.nodes` whose `__typename` is
`"Disclosed"`, preserving upstream order (the result is a sublist); the
*poll lambda's* fetch operation returns every node unfiltered. -/
theorem claim_C5_fetch_filter (r : HttpResponse) (nodes : List Node)
    (hn : r.jsonNodes = some nodes) (hs2 : ¬(400 ≤ r.status ∧ r.status < 600)) :
    Worker.fetch_hacktivity (Except.ok r) =
      Except.ok (nodes.filter (fun n => n.typename == "Disclosed")) ∧
    (nodes.filter (fun n => n.typename == "Disclosed")).Sublist nodes ∧
    (∀ n ∈ nodes.filter (fun n => n.typename == "Disclosed"),
      n.typename = "Disclosed") ∧
    PollLambda.fetch_hacktivity (Except.ok r) = Except.ok nodes := by
  refine ⟨?_, List.filter_sublist _, ?_, ?_⟩
  · simp [Worker.fetch_hacktivity, raise_for_status, hs2, hn]
  · intro n hn2
    simpa using (List.mem_filter.1 hn2).2
  · simp [PollLambda.fetch_hacktivity, raise_for_status, hs2, hn]

/-- Witness for the amended C5 at the Disclosed/Other/Disclosed batch. -/
theorem claim_C5_fetch_filter_witness :
    Worker.fetch_hacktivity (Except.ok (okResp [nodeA, nodeOther, nodeC])) =
      Except.ok ([nodeA, nodeOther, nodeC].filter
        (fun n => n.typename == "Disclosed")) ∧
    ([nodeA, nodeOther, nodeC].filter (fun n => n.typename == "Disclosed")).Sublist
      [nodeA, nodeOther, nodeC] ∧
    (∀ n ∈ [nodeA, nodeOther, nodeC].filter (fun n => n.typename == "Disclosed"),
      n.typename = "Disclosed") ∧
    PollLambda.fetch_hacktivity (Except.ok (okResp [nodeA, nodeOther, nodeC])) =
      Except.ok [nodeA, nodeOther, nodeC] :=
  claim_C5_fetch_filter (okResp [nodeA, nodeOther, nodeC])
    [nodeA, nodeOther, nodeC] rfl (by decide)

/-- Claim C6: every fetch a worker cycle performs uses `since = now − 15
minutes` computed from that cycle's own clock reading, every fetch of the
poll lambda uses `since = now − 4 minutes`, and the window start is
strictly monotone in the clock — so successive cycles use strictly later
window starts, not a value fixed at process start. -/
theorem claim_C6_window_computed_fresh :
    (∀ (env : Worker.CycleEnv) (seen : List String) (s : Int),
      Worker.Action.fetchA s ∈ (Worker.runCycle env seen).trace →
      s = env.now - 15 * 60) ∧
    (∀ (lenv : PollLambda.LambdaEnv) (s : Int),
      Worker.Action.fetchA s ∈ (PollLambda.lambda_handler lenv).trace →
      s = lenv.now - 4 * 60) ∧
    (∀ n1 n2 : Int, n1 < n2 →
      Worker.worker_since n1 < Worker.worker_since n2 ∧
      PollLambda.lambda_since n1 < PollLambda.lambda_since n2) := by
  refine ⟨?_, ?_, ?_⟩
  · intro env seen s h
    simpa [Worker.worker_since, Worker.worker_lookback] using
      Worker.runCycle_fetch_since env seen s h
  · intro lenv s h
    rcases PollLambda.lambda_trace lenv with ht | ht <;> rw [ht] at h
    · simp at h
    · simp only [List.mem_cons] at h
      have h2 : s = PollLambda.lambda_since lenv.now := by
        rcases h with h | h
        · cases h
        · rcases h with h | h
          · injection h with h3
          · cases h
      simpa [PollLambda.lambda_since, PollLambda.lambda_lookback] using h2
  · intro n1 n2 h
    refine ⟨?_, ?_⟩ <;>
      simp [Worker.worker_since, Worker.worker_lookback,
        PollLambda.lambda_since, PollLambda.lambda_lookback] <;> omega

/-- Witness for C6 at a concrete cycle with clock reading 0. -/
theorem claim_C6_window_computed_fresh_witness :
    Worker.Action.fetchA (-900) ∈ (Worker.runCycle (envWith [] fwdOk) []).trace ∧
    (-900 : Int) = (envWith [] fwdOk).now - 15 * 60 :=
  ⟨by decide,
   claim_C6_window_computed_fresh.1 (envWith [] fwdOk) [] (-900) (by decide)⟩

/-- Claim C7: the worker loop terminates a run only on
`KeyboardInterrupt`; a cycle ending with any other exception, or with
none, is followed by the next cycle (after the inter-cycle sleep), with
the cycle's trace prepended. -/
theorem claim_C7_loop_survives_all_but_interrupt (env : Worker.CycleEnv)
    (rest : List Worker.CycleEnv) (seen : List String) :
    ((Worker.runCycle env seen).exc = some PyExc.keyboardInterrupt →
      Worker.runLoop (env :: rest) seen =
        ((Worker.runCycle env seen).seen, (Worker.runCycle env seen).trace)) ∧
    (∀ e, (Worker.runCycle env seen).exc = some e →
      e ≠ PyExc.keyboardInterrupt →
      Worker.runLoop (env :: rest) seen =
        ((Worker.runLoop rest (Worker.runCycle env seen).seen).1,
         (Worker.runCycle env seen).trace ++
           (Worker.runLoop rest (Worker.runCycle env seen).seen).2)) ∧
    ((Worker.runCycle env seen).exc = none →
      Worker.runLoop (env :: rest) seen =
        ((Worker.runLoop rest (Worker.runCycle env seen).seen).1,
         (Worker.runCycle env seen).trace ++
           (Worker.runLoop rest (Worker.runCycle env seen).seen).2)) := by
  refine ⟨?_, ?_, ?_⟩
  · intro h
    exact Worker.runLoop_cons_break env rest seen h
  · intro e he hne
    refine Worker.runLoop_cons_cont env rest seen ?_
    rw [he]
    intro hh
    exact hne (Option.some.inj hh)
  · intro h
    refine Worker.runLoop_cons_cont env rest seen ?_
    rw [h]
    intro hh
    cases hh

/-- Witness for C7 at a cycle whose delivery error is not an
interrupt. -/
theorem claim_C7_loop_survives_all_but_interrupt_witness :
    Worker.runLoop [envWith [nodeX] failOnX] [] =
      ((Worker.runLoop [] (Worker.runCycle (envWith [nodeX] failOnX) []).seen).1,
       (Worker.runCycle (envWith [nodeX] failOnX) []).trace ++
         (Worker.runLoop [] (Worker.runCycle (envWith [nodeX] failOnX) []).seen).2) :=
  (claim_C7_loop_survives_all_but_interrupt (envWith [nodeX] failOnX) [] []).2.1
    (PyExc.other "DeliveryError") (by decide) (by decide)

/-- Claim C8 as written is false in one respect: `raise_for_status`
raises only for 4xx/5xx statuses, so a non-2xx response such as 304 with
the token element present does *not* make `refresh_csrf` fail — it
succeeds and sets the header. -/
theorem claim_C8_counterexample :
    (304 < 200 ∨ 300 ≤ 304) ∧
    refresh_csrf ⟨304, some "tok"⟩ [] =
      Except.ok [("x-csrf-token", "tok")] ∧
    getHeader [("x-csrf-token", "tok")] "x-csrf-token" = some "tok" :=
  ⟨by decide, rfl, rfl⟩

/-- Claim C8 amended: `refresh_csrf` GETs the landing page, extracts the
`content` attribute of the `meta[name="csrf-token"]` element and sets it
as the session's `x-csrf-token` header, so subsequent session requests
carry it; it fails when the page fetch returns a 4xx or 5xx status (not
every non-2xx status) or when the token element is absent from the
markup. -/
theorem claim_C8_refresh_csrf_behaviour (page : HtmlPage) (hs : Headers) :
    (∀ tok, page.metaCsrfContent = some tok →
      ¬(400 ≤ page.status ∧ page.status < 600) →
      refresh_csrf page hs = Except.ok (setHeader hs "x-csrf-token" tok) ∧
      getHeader (setHeader hs "x-csrf-token" tok) "x-csrf-token" = some tok) ∧
    ((400 ≤ page.status ∧ page.status < 600) →
      refresh_csrf page hs = Except.error (PyExc.httpError page.status "")) ∧
    (page.metaCsrfContent = none → ¬(400 ≤ page.status ∧ page.status < 600) →
      refresh_csrf page hs =
        Except.error (PyExc.other "TypeError: NoneType is not subscriptable")) := by
  refine ⟨?_, ?_, ?_⟩
  · intro tok htok hsz
    exact ⟨by simp [refresh_csrf, hsz, htok],
           Worker.getHeader_setHeader hs "x-csrf-token" tok⟩
  · intro hsz
    simp [refresh_csrf, hsz]
  · intro htok hsz
    simp [refresh_csrf, hsz, htok]

/-- Witness for the amended C8 at a 200 page carrying token "T". -/
theorem claim_C8_refresh_csrf_behaviour_witness :
    refresh_csrf ⟨200, some "T"⟩ [] =
      Except.ok (setHeader [] "x-csrf-token" "T") ∧
    getHeader (setHeader [] "x-csrf-token" "T") "x-csrf-token" = some "T" :=
  (claim_C8_refresh_csrf_behaviour ⟨200, some "T"⟩ []).1 "T" rfl (by decide)

/-- Claim C9: the worker never refreshes the CSRF token before a fetch —
every cycle's first action is the fetch itself, and a refresh occurs in a
cycle only when the first fetch already failed with status 500 and the
standard-error marker; the poll lambda, by contrast, always refreshes
first. -/
theorem claim_C9_no_refresh_before_fetch (env : Worker.CycleEnv)
    (seen : List String) :
    (Worker.runCycle env seen).trace.head? =
      some (Worker.Action.fetchA (Worker.worker_since env.now)) ∧
    (Worker.Action.refreshA ∈ (Worker.runCycle env seen).trace →
      ∃ body, Worker.fetch_hacktivity env.resp1 =
          Except.error (PyExc.httpError 500 body) ∧
        hasStandardError body = true) ∧
    (∀ lenv : PollLambda.LambdaEnv,
      (PollLambda.lambda_handler lenv).trace.head? =
        some Worker.Action.refreshA) := by
  refine ⟨Worker.runCycle_trace_head env seen, ?_, ?_⟩
  · intro h
    rcases Worker.runCycle_trace_mem env seen _ h with h1 | ⟨rid, h1⟩
    · exact Worker.fetchPhase_refresh_mem env h1
    · cases h1
  · intro lenv
    rcases PollLambda.lambda_trace lenv with ht | ht <;> rw [ht] <;> rfl

/-- Witness for C9: a clean cycle leads with its fetch, and the refresh
observed in the retry environment implies the classified 500 failure. -/
theorem claim_C9_no_refresh_before_fetch_witness :
    (Worker.runCycle (envWith [] fwdOk) []).trace.head? =
      some (Worker.Action.fetchA (Worker.worker_since (envWith [] fwdOk).now)) ∧
    (∃ body, Worker.fetch_hacktivity envRetry.resp1 =
        Except.error (PyExc.httpError 500 body) ∧
      hasStandardError body = true) :=
  ⟨(claim_C9_no_refresh_before_fetch (envWith [] fwdOk) []).1,
   (claim_C9_no_refresh_before_fetch envRetry []).2.1 (by decide)⟩

/-- Claim C10: the poll lambda sends one SQS message per fetched node,
with `MessageGroupId` fixed to "hacktivity" and `MessageDeduplicationId`
computed by the `get`-with-default chain, which yields `None` (no
exception) when the node lacks a `report` object or an `_id` field. -/
theorem claim_C10_sqs_fields (env : PollLambda.LambdaEnv) (r : HttpResponse)
    (nodes : List Node) (hr : env.resp = Except.ok r)
    (hn : r.jsonNodes = some nodes) (hs2 : ¬(400 ≤ r.status ∧ r.status < 600))
    (href : env.refreshResult = Except.ok ()) :
    (PollLambda.lambda_handler env).result =
      Except.ok (nodes.map PollLambda.sendOf) ∧
    (∀ n ∈ nodes, (PollLambda.sendOf n).groupId = "hacktivity" ∧
      (PollLambda.sendOf n).dedupId = PollLambda.dedupIdOf n) ∧
    (∀ n : Node, n.reportOpt = none → PollLambda.dedupIdOf n = none) ∧
    (∀ (n : Node) (rep : Report), n.reportOpt = some rep →
      PollLambda.dedupIdOf n = rep.idOpt) := by
  refine ⟨?_, ?_, ?_, ?_⟩
  · simp [PollLambda.lambda_handler, href, PollLambda.fetch_hacktivity, hr,
      raise_for_status, hs2, hn]
  · intro n hmem
    exact ⟨rfl, rfl⟩
  · intro n h
    simp [PollLambda.dedupIdOf, h]
  · intro n rep h
    simp [PollLambda.dedupIdOf, h]

/-- Witness for C10 at a batch whose single node has no report object. -/
theorem claim_C10_sqs_fields_witness :
    (PollLambda.lambda_handler
        ⟨0, Except.ok (), Except.ok (okResp [nodeNoReport])⟩).result =
      Except.ok ([nodeNoReport].map PollLambda.sendOf) ∧
    PollLambda.dedupIdOf nodeNoReport = none :=
  ⟨(claim_C10_sqs_fields ⟨0, Except.ok (), Except.ok (okResp [nodeNoReport])⟩
      (okResp [nodeNoReport]) [nodeNoReport] rfl rfl (by decide) rfl).1,
   (claim_C10_sqs_fields ⟨0, Except.ok (), Except.ok (okResp [nodeNoReport])⟩
      (okResp [nodeNoReport]) [nodeNoReport] rfl rfl (by decide) rfl).2.2.1
     nodeNoReport rfl⟩
